import Mathlib

/-!
Shallow embedding of `src/app/api/payments/square/route.ts`: a payment-intake
adapter with two HTTP handlers.  `POST` validates a create-payment request,
charges the external Square gateway, persists a payment record, and optionally
updates a tournament registration.  `PUT` updates a stored payment's status.

The handlers are embedded as pure functions of the parsed request body and an
environment describing the behaviour of the external collaborators (the
gateway outcome, the database insert/update outcomes, the stored table).  Each
handler returns the HTTP response together with a trace of the outbound calls
it performed, so that statements about "the gateway is never called" or "no
database write is performed" can be expressed.
-/

/-- A JSON value as destructured from the request body.  JavaScript amounts are
numbers; we model them as rationals (non-integral and negative amounts occur
in the validation logic; NaN/Infinity are out of scope). -/
inductive JVal where
  | str (s : String)
  | num (q : ℚ)
  | jbool (b : Bool)
  | jnull
deriving DecidableEq

/-- JavaScript truthiness of a value: `""`, `0`, `false`, `null` are falsy. -/
def JVal.truthy : JVal → Bool
  | .str s => s ≠ ""
  | .num q => q ≠ 0
  | .jbool b => b
  | .jnull => false

/-- Truthiness of a possibly-absent field (`undefined` is falsy). -/
def truthyOpt : Option JVal → Bool
  | some v => v.truthy
  | none => false

/-- JavaScript string coercion, as used by template interpolation
in the reference string.  (For the claims only the string case matters.) -/
def JVal.toJSString : JVal → String
  | .str s => s
  | .num q => toString q
  | .jbool b => cond b "true" "false"
  | .jnull => "null"

/-- JavaScript `.toLowerCase()` on a string (ASCII case mapping). -/
def jsToLowerCase (s : String) : String :=
  String.mk (s.data.map Char.toLower)

/-- `Number.isInteger` on a destructured value: false on non-numbers. -/
def jsIsInteger : JVal → Bool
  | .num q => q.den = 1
  | _ => false

/-- The fields destructured from a parsed JSON request body.  Both handlers
destructure from the same parsed object; absent fields are `none`
(`undefined`). -/
structure Body where
  sourceId : Option JVal := none
  amount : Option JVal := none
  description : Option JVal := none
  idempotencyKey : Option JVal := none
  userId : Option JVal := none
  tournamentId : Option JVal := none
  paymentId : Option JVal := none
  status : Option JVal := none
deriving DecidableEq

/-- An inbound request: either `request.json()` throws (malformed body), or it
yields a parsed body. -/
inductive ReqBody where
  | malformed
  | parsed (body : Body)
deriving DecidableEq

/-- The gateway's successful charge result: {identifier, amount, currency,
status}. -/
structure Payment where
  id : String
  amount : ℚ
  currency : String
  status : String
deriving DecidableEq

/-- The environment's choice of how the gateway responds to the charge call:
success (with the identifier, status string and currency it reports), the
recognized gateway-specific `SquarePaymentError` carrying a message, or any
other unexpected error. -/
inductive GatewayOutcome where
  | ok (id status currency : String)
  | squarePaymentError (message : String)
  | otherError
deriving DecidableEq

/-- The error raised by the gateway call: the recognized
`SquarePaymentError` with a human-readable message, or anything else. -/
inductive SquareError where
  | squarePaymentError (message : String)
  | other
deriving DecidableEq

/-- The arguments the handler passes to the gateway's charge operation. -/
structure CreatePaymentArgs where
  sourceId : Option JVal
  amount : ℚ
  currency : String
  idempotencyKey : Option JVal
  note : Option JVal
  referenceId : Option String
deriving DecidableEq

/-- Modelled from the spec: `createPayment` lives in `@/lib/square`, which is
not under `src/`.  Per the spec (§6), the gateway's charge operation, given
{source token, integer minor-unit amount, currency code, idempotency key,
note, optional reference string}, either charges the requested amount and
returns {identifier, amount, currency, status}, or raises a gateway-specific
error carrying a human-readable message, or raises some other error.  The
identifier, status and currency of a successful charge (and the error kind)
are chosen by the environment; the amount of a successful charge is the
requested amount. -/
def createPayment (args : CreatePaymentArgs) (outcome : GatewayOutcome) :
    Except SquareError Payment :=
  match outcome with
  | .ok gid gstatus gcurrency =>
      .ok { id := gid, amount := args.amount, currency := gcurrency, status := gstatus }
  | .squarePaymentError m => .error (.squarePaymentError m)
  | .otherError => .error .other

/-- The row the handler inserts into the `payments` table (the metadata blob
holds the full gateway payment and the idempotency key). -/
structure PaymentInsert where
  user_id : Option JVal
  tournament_id : Option JVal
  square_payment_id : String
  amount : ℚ
  currency : String
  status : String
  payment_type : String
  description : Option JVal
  metadata_square_payment : Payment
  metadata_idempotency_key : Option JVal
deriving DecidableEq

/-- The update the handler sends to the `tournament_registrations` table,
matched by the (tournament_id, user_id) composite key. -/
structure RegistrationUpdate where
  payment_status : String
  payment_id : String
  payment_amount : ℚ
  tournament_id : Option JVal
  user_id : Option JVal
deriving DecidableEq

/-- Environment for the create-payment handler: the gateway outcome, the
outcome of the `payments` insert (`none` = database error, `some rid` =
success with the inserted row's identifier), and whether the registration
update fails (its failure is only logged). -/
structure PostEnv where
  gateway : GatewayOutcome
  insertOutcome : Option String
  regUpdateFails : Bool
deriving DecidableEq

/-- Trace of the outbound calls the create-payment handler performed. -/
structure PostTrace where
  gatewayCalls : List CreatePaymentArgs := []
  inserts : List PaymentInsert := []
  regUpdates : List RegistrationUpdate := []
deriving DecidableEq

/-- The JSON body of the create-payment response (absent fields are `none`),
paired with the HTTP status code. -/
structure PostResponse where
  httpStatus : Nat
  success : Bool
  error : Option String := none
  paymentId : Option String := none
  amount : Option ℚ := none
  paymentStatus : Option String := none
  recordId : Option String := none
  warning : Option String := none
deriving DecidableEq

/-- The reference string passed to the gateway:
`tournament_<tournamentId>` when tournamentId is truthy, else undefined. -/
def referenceIdOf : Option JVal → Option String
  | some t => if t.truthy then some ("tournament_" ++ t.toJSString) else none
  | none => none

/-- The part of `POST` after validation has passed (`q` is the validated
positive integer amount): charge the gateway, insert the payment record,
conditionally update the registration, and build the response. -/
def postCharge (body : Body) (q : ℚ) (env : PostEnv) : PostResponse × PostTrace :=
  let args : CreatePaymentArgs :=
    { sourceId := body.sourceId
      amount := q
      currency := "GBP"
      idempotencyKey := body.idempotencyKey
      note := body.description
      referenceId := referenceIdOf body.tournamentId }
  match createPayment args env.gateway with
  | .error (.squarePaymentError m) =>
      ({ httpStatus := 400, success := false, error := some m },
       { gatewayCalls := [args] })
  | .error .other =>
      ({ httpStatus := 500, success := false, error := some "Payment processing failed" },
       { gatewayCalls := [args] })
  | .ok payment =>
      let ins : PaymentInsert :=
        { user_id := body.userId
          tournament_id := body.tournamentId
          square_payment_id := payment.id
          amount := q / 100
          currency := payment.currency
          status := jsToLowerCase payment.status
          payment_type := if truthyOpt body.tournamentId then "entry_fee" else "other"
          description := body.description
          metadata_square_payment := payment
          metadata_idempotency_key := body.idempotencyKey }
      match env.insertOutcome with
      | none =>
          ({ httpStatus := 200, success := true, paymentId := some payment.id,
             warning := some "Payment processed but record creation failed" },
           { gatewayCalls := [args], inserts := [ins] })
      | some rid =>
          let regUpdates : List RegistrationUpdate :=
            if truthyOpt body.tournamentId && truthyOpt body.userId then
              [{ payment_status := "completed"
                 payment_id := payment.id
                 payment_amount := q / 100
                 tournament_id := body.tournamentId
                 user_id := body.userId }]
            else []
          ({ httpStatus := 200, success := true, paymentId := some payment.id,
             amount := some payment.amount, paymentStatus := some payment.status,
             recordId := some rid },
           { gatewayCalls := [args], inserts := [ins], regUpdates := regUpdates })

/-- The create-payment handler.  Mirrors the source line by line: a malformed
body throws into the catch block (500 generic); then the two validation
checks; then the charge / insert / registration-update sequence.  A
registration-update failure is only logged, so `env.regUpdateFails` does not
appear in the result. -/
def POST (request : ReqBody) (env : PostEnv) : PostResponse × PostTrace :=
  match request with
  | .malformed =>
      ({ httpStatus := 500, success := false, error := some "Payment processing failed" }, {})
  | .parsed body =>
      if !truthyOpt body.sourceId || !truthyOpt body.amount || !truthyOpt body.idempotencyKey then
        ({ httpStatus := 400, success := false,
           error := some "Missing required payment information" }, {})
      else
        match body.amount with
        | some (JVal.num q) =>
            if q.den = 1 ∧ 0 < q then postCharge body q env
            else ({ httpStatus := 400, success := false,
                    error := some "Invalid payment amount" }, {})
        | _ =>
            ({ httpStatus := 400, success := false,
               error := some "Invalid payment amount" }, {})

/-- A row of the `payments` table as seen by the status-update handler. -/
structure StoredPayment where
  id : String
  square_payment_id : String
  status : String
  updated_at : Option String
deriving DecidableEq

/-- Environment for the status-update handler: the stored `payments` table,
the current timestamp string, and whether the store write fails. -/
structure PutEnv where
  table : List StoredPayment
  now : String
  writeFails : Bool
deriving DecidableEq

/-- Trace of outbound calls of the status-update handler; the source contains
no gateway call on this path, so `gatewayCalls` is empty by construction. -/
structure PutTrace where
  gatewayCalls : List CreatePaymentArgs := []
deriving DecidableEq

/-- The JSON body of the status-update response, with the HTTP status code. -/
structure PutResponse where
  httpStatus : Nat
  success : Bool
  error : Option String := none
  payment : Option StoredPayment := none
deriving DecidableEq

/-- Does a stored row match the `.eq` filter on `square_payment_id`? -/
def matchesPaymentId (pid : Option JVal) (r : StoredPayment) : Bool :=
  match pid with
  | some v => r.square_payment_id = v.toJSString
  | none => false

/-- The `update … .eq('square_payment_id', paymentId).select().single()` call:
fails when the store write fails or when the filter does not match exactly one
row; otherwise returns the matched row with the new status and timestamp. -/
def putUpdate (pid : Option JVal) (newStatus : String) (env : PutEnv) :
    Except Unit StoredPayment :=
  if env.writeFails then Except.error () else
  match env.table.filter (fun r => matchesPaymentId pid r) with
  | [r] => Except.ok { r with status := newStatus, updated_at := some env.now }
  | _ => Except.error ()

/-- The status-update handler.  A malformed body throws into the catch block
(500 generic); missing paymentId or status gives 400; a truthy non-string
status has no `toLowerCase` method, so the call throws into the catch block
(500 generic); otherwise the store update runs and its failure gives 500. -/
def PUT (request : ReqBody) (env : PutEnv) : PutResponse × PutTrace :=
  match request with
  | .malformed =>
      ({ httpStatus := 500, success := false, error := some "Payment update failed" }, {})
  | .parsed body =>
      if !truthyOpt body.paymentId || !truthyOpt body.status then
        ({ httpStatus := 400, success := false,
           error := some "Missing payment ID or status" }, {})
      else
        match body.status with
        | some (JVal.str s) =>
            match putUpdate body.paymentId (jsToLowerCase s) env with
            | .error _ =>
                ({ httpStatus := 500, success := false,
                   error := some "Failed to update payment status" }, {})
            | .ok row =>
                ({ httpStatus := 200, success := true, payment := some row }, {})
        | _ =>
            ({ httpStatus := 500, success := false,
               error := some "Payment update failed" }, {})

/-- C1: for every valid create-payment request where the gateway charge
succeeds and the store accepts the insert, the response is HTTP 200 with
success=true, the gateway payment id, amount, status, and recordId equal to
the inserted row's identifier, and the persisted record's amount equals the
gateway amount's minor-unit value (`q`, which is also the response's `amount`
field) divided by 100. -/
theorem c1_full_success (body : Body) (q : ℚ) (env : PostEnv)
    (gid gstatus gcurrency rid : String)
    (hsrc : truthyOpt body.sourceId = true)
    (hkey : truthyOpt body.idempotencyKey = true)
    (hamt : body.amount = some (JVal.num q))
    (hden : q.den = 1) (hpos : 0 < q)
    (hgw : env.gateway = GatewayOutcome.ok gid gstatus gcurrency)
    (hins : env.insertOutcome = some rid) :
    (POST (ReqBody.parsed body) env).1 =
      { httpStatus := 200, success := true, paymentId := some gid, amount := some q,
        paymentStatus := some gstatus, recordId := some rid } ∧
    (POST (ReqBody.parsed body) env).2.inserts.map PaymentInsert.amount = [q / 100] := by
  have htr : truthyOpt (some (JVal.num q)) = true := by
    simp [truthyOpt, JVal.truthy, hpos.ne']
  simp [POST, postCharge, createPayment, hsrc, hkey, hamt, htr, hden, hpos, hgw, hins]

/-- Witness for C1 at a concrete request (amount 300, gateway id pay_1,
status COMPLETED, inserted row rec_1). -/
theorem c1_full_success_witness :
    (POST (ReqBody.parsed
        { sourceId := some (JVal.str "src_1"), amount := some (JVal.num 300),
          idempotencyKey := some (JVal.str "key_1") })
        { gateway := GatewayOutcome.ok "pay_1" "COMPLETED" "GBP",
          insertOutcome := some "rec_1", regUpdateFails := false }).1 =
      { httpStatus := 200, success := true, paymentId := some "pay_1", amount := some 300,
        paymentStatus := some "COMPLETED", recordId := some "rec_1" } ∧
    (POST (ReqBody.parsed
        { sourceId := some (JVal.str "src_1"), amount := some (JVal.num 300),
          idempotencyKey := some (JVal.str "key_1") })
        { gateway := GatewayOutcome.ok "pay_1" "COMPLETED" "GBP",
          insertOutcome := some "rec_1", regUpdateFails := false }).2.inserts.map
        PaymentInsert.amount = [(300 : ℚ) / 100] :=
  c1_full_success _ 300 _ "pay_1" "COMPLETED" "GBP" "rec_1"
    (by decide) (by decide) rfl (by decide) (by decide) rfl rfl

/-- C2: for every valid create-payment request where the gateway charge
succeeds but the payments insert fails, the response is HTTP 200 (not 500)
with success=true, the gateway paymentId, and an explicit warning field;
the charge is never reported as a failure because persistence failed. -/
theorem c2_insert_failure_warning (body : Body) (q : ℚ) (env : PostEnv)
    (gid gstatus gcurrency : String)
    (hsrc : truthyOpt body.sourceId = true)
    (hkey : truthyOpt body.idempotencyKey = true)
    (hamt : body.amount = some (JVal.num q))
    (hden : q.den = 1) (hpos : 0 < q)
    (hgw : env.gateway = GatewayOutcome.ok gid gstatus gcurrency)
    (hins : env.insertOutcome = none) :
    (POST (ReqBody.parsed body) env).1 =
      { httpStatus := 200, success := true, paymentId := some gid,
        warning := some "Payment processed but record creation failed" } := by
  have htr : truthyOpt (some (JVal.num q)) = true := by
    simp [truthyOpt, JVal.truthy, hpos.ne']
  simp [POST, postCharge, createPayment, hsrc, hkey, hamt, htr, hden, hpos, hgw, hins]

/-- Witness for C2 at a concrete request whose insert fails. -/
theorem c2_insert_failure_warning_witness :
    (POST (ReqBody.parsed
        { sourceId := some (JVal.str "src_1"), amount := some (JVal.num 300),
          idempotencyKey := some (JVal.str "key_1") })
        { gateway := GatewayOutcome.ok "pay_1" "COMPLETED" "GBP",
          insertOutcome := none, regUpdateFails := false }).1 =
      { httpStatus := 200, success := true, paymentId := some "pay_1",
        warning := some "Payment processed but record creation failed" } :=
  c2_insert_failure_warning _ 300 _ "pay_1" "COMPLETED" "GBP"
    (by decide) (by decide) rfl (by decide) (by decide) rfl rfl

/-- C3: for every create-payment request on which the gateway raises its
recognized `SquarePaymentError` with message `m`, the response is HTTP 400
with success=false and error equal to `m` exactly, and no database write
(neither the payments insert nor the registration update) is performed. -/
theorem c3_gateway_error_aborts (body : Body) (q : ℚ) (env : PostEnv) (m : String)
    (hsrc : truthyOpt body.sourceId = true)
    (hkey : truthyOpt body.idempotencyKey = true)
    (hamt : body.amount = some (JVal.num q))
    (hden : q.den = 1) (hpos : 0 < q)
    (hgw : env.gateway = GatewayOutcome.squarePaymentError m) :
    (POST (ReqBody.parsed body) env).1 =
      { httpStatus := 400, success := false, error := some m } ∧
    (POST (ReqBody.parsed body) env).2.inserts = [] ∧
    (POST (ReqBody.parsed body) env).2.regUpdates = [] := by
  have htr : truthyOpt (some (JVal.num q)) = true := by
    simp [truthyOpt, JVal.truthy, hpos.ne']
  simp [POST, postCharge, createPayment, hsrc, hkey, hamt, htr, hden, hpos, hgw]

/-- Witness for C3 at a concrete request the gateway declines. -/
theorem c3_gateway_error_aborts_witness :
    (POST (ReqBody.parsed
        { sourceId := some (JVal.str "src_1"), amount := some (JVal.num 300),
          idempotencyKey := some (JVal.str "key_1") })
        { gateway := GatewayOutcome.squarePaymentError "Card declined",
          insertOutcome := some "rec_1", regUpdateFails := false }).1 =
      { httpStatus := 400, success := false, error := some "Card declined" } ∧
    (POST (ReqBody.parsed
        { sourceId := some (JVal.str "src_1"), amount := some (JVal.num 300),
          idempotencyKey := some (JVal.str "key_1") })
        { gateway := GatewayOutcome.squarePaymentError "Card declined",
          insertOutcome := some "rec_1", regUpdateFails := false }).2.inserts = [] ∧
    (POST (ReqBody.parsed
        { sourceId := some (JVal.str "src_1"), amount := some (JVal.num 300),
          idempotencyKey := some (JVal.str "key_1") })
        { gateway := GatewayOutcome.squarePaymentError "Card declined",
          insertOutcome := some "rec_1", regUpdateFails := false }).2.regUpdates = [] :=
  c3_gateway_error_aborts _ 300 _ "Card declined"
    (by decide) (by decide) rfl (by decide) (by decide) rfl

/-- C4: for every create-payment request missing sourceId, amount, or
idempotencyKey (falsy), or whose amount is zero, negative, or non-integral,
the response is HTTP 400 with success=false, and neither the gateway charge
nor any store operation is ever invoked. -/
theorem c4_validation_rejects (body : Body) (env : PostEnv)
    (h : truthyOpt body.sourceId = false ∨ truthyOpt body.amount = false ∨
         truthyOpt body.idempotencyKey = false ∨
         ∃ q, body.amount = some (JVal.num q) ∧ (q ≤ 0 ∨ q.den ≠ 1)) :
    (POST (ReqBody.parsed body) env).1.httpStatus = 400 ∧
    (POST (ReqBody.parsed body) env).1.success = false ∧
    (POST (ReqBody.parsed body) env).2.gatewayCalls = [] ∧
    (POST (ReqBody.parsed body) env).2.inserts = [] ∧
    (POST (ReqBody.parsed body) env).2.regUpdates = [] := by
  by_cases hmiss :
      (!truthyOpt body.sourceId || !truthyOpt body.amount ||
        !truthyOpt body.idempotencyKey) = true
  · simp [POST, hmiss]
  · simp only [Bool.or_eq_true, Bool.not_eq_true', not_or] at hmiss
    obtain ⟨⟨hs, ha⟩, hk⟩ := hmiss
    rcases h with h | h | h | ⟨q, hq, hbad⟩
    · exact absurd hs (by simp [h])
    · exact absurd ha (by simp [h])
    · exact absurd hk (by simp [h])
    · have hq0 : q ≠ 0 := by
        intro h0
        rw [hq, h0] at ha
        simp [truthyOpt, JVal.truthy] at ha
      have htr : truthyOpt (some (JVal.num q)) = true := by
        simp [truthyOpt, JVal.truthy, hq0]
      have hcond : ¬ (q.den = 1 ∧ 0 < q) := by
        rintro ⟨h1, h2⟩
        rcases hbad with hle | hden
        · exact absurd h2 (not_lt.mpr hle)
        · exact hden h1
      simp [POST, hs, ha, hk, hq, htr, hcond]

/-- Witness for C4 at two concrete inputs: a request with no sourceId, and a
request with a negative amount. -/
theorem c4_validation_rejects_witness :
    (POST (ReqBody.parsed
        { amount := some (JVal.num 300), idempotencyKey := some (JVal.str "key_1") })
        { gateway := GatewayOutcome.ok "pay_1" "COMPLETED" "GBP",
          insertOutcome := some "rec_1", regUpdateFails := false }).1.httpStatus = 400 ∧
    (POST (ReqBody.parsed
        { sourceId := some (JVal.str "src_1"), amount := some (JVal.num (-5)),
          idempotencyKey := some (JVal.str "key_1") })
        { gateway := GatewayOutcome.ok "pay_1" "COMPLETED" "GBP",
          insertOutcome := some "rec_1", regUpdateFails := false }).2.gatewayCalls = [] := by
  constructor
  · exact (c4_validation_rejects _ _ (Or.inl (by decide))).1
  · exact (c4_validation_rejects _ _
      (Or.inr (Or.inr (Or.inr ⟨-5, rfl, Or.inl (by decide)⟩)))).2.2.1

/-- C5: for every update-status request: missing paymentId or status gives
HTTP 400; with both present and exactly one matching stored record and a
working store, the record located by the gateway payment identifier has its
status overwritten with the lower-cased status string plus an updated
timestamp, the response is HTTP 200 containing the updated record, and no
gateway call is made; on lookup/write failure the response is HTTP 500 with a
generic message. -/
theorem c5_update_status :
    (∀ (body : Body) (env : PutEnv),
      truthyOpt body.paymentId = false ∨ truthyOpt body.status = false →
      (PUT (ReqBody.parsed body) env).1 =
        { httpStatus := 400, success := false,
          error := some "Missing payment ID or status" }) ∧
    (∀ (body : Body) (env : PutEnv) (s : String) (r : StoredPayment),
      truthyOpt body.paymentId = true →
      body.status = some (JVal.str s) → s ≠ "" →
      env.writeFails = false →
      env.table.filter (fun row => matchesPaymentId body.paymentId row) = [r] →
      (PUT (ReqBody.parsed body) env).1 =
        { httpStatus := 200, success := true,
          payment := some { r with status := jsToLowerCase s, updated_at := some env.now } } ∧
      (PUT (ReqBody.parsed body) env).2.gatewayCalls = []) ∧
    (∀ (body : Body) (env : PutEnv) (s : String),
      truthyOpt body.paymentId = true →
      body.status = some (JVal.str s) → s ≠ "" →
      putUpdate body.paymentId (jsToLowerCase s) env = Except.error () →
      (PUT (ReqBody.parsed body) env).1 =
        { httpStatus := 500, success := false,
          error := some "Failed to update payment status" }) := by
  refine ⟨?_, ?_, ?_⟩
  · rintro body env (h | h) <;> simp [PUT, h]
  · intro body env s r hp hst hs hw hfilter
    have htr : truthyOpt (some (JVal.str s)) = true := by
      simp [truthyOpt, JVal.truthy, hs]
    simp [PUT, putUpdate, hp, hst, htr, hw, hfilter]
  · intro body env s hp hst hs hupd
    have htr : truthyOpt (some (JVal.str s)) = true := by
      simp [truthyOpt, JVal.truthy, hs]
    simp [PUT, hp, hst, htr, hupd]

/-- Witness for C5: the three parts at concrete inputs (a request with no
status; a successful update of row r1 from pending to completed; a request
against a failing store). -/
theorem c5_update_status_witness :
    (PUT (ReqBody.parsed { paymentId := some (JVal.str "pay_1") })
        { table := [], now := "2026-01-01T00:00:00.000Z", writeFails := false }).1 =
      { httpStatus := 400, success := false,
        error := some "Missing payment ID or status" } ∧
    (PUT (ReqBody.parsed
        { paymentId := some (JVal.str "pay_1"), status := some (JVal.str "COMPLETED") })
        { table := [{ id := "r1", square_payment_id := "pay_1", status := "pending",
                      updated_at := none }],
          now := "2026-01-01T00:00:00.000Z", writeFails := false }).1 =
      { httpStatus := 200, success := true,
        payment := some { id := "r1", square_payment_id := "pay_1",
                          status := "completed",
                          updated_at := some "2026-01-01T00:00:00.000Z" } } ∧
    (PUT (ReqBody.parsed
        { paymentId := some (JVal.str "pay_1"), status := some (JVal.str "COMPLETED") })
        { table := [], now := "2026-01-01T00:00:00.000Z", writeFails := true }).1 =
      { httpStatus := 500, success := false,
        error := some "Failed to update payment status" } := by
  obtain ⟨ha, hb, hc⟩ := c5_update_status
  refine ⟨ha _ _ (Or.inr (by decide)), ?_, ?_⟩
  · have h := (hb
      { paymentId := some (JVal.str "pay_1"), status := some (JVal.str "COMPLETED") }
      { table := [{ id := "r1", square_payment_id := "pay_1", status := "pending",
                    updated_at := none }],
        now := "2026-01-01T00:00:00.000Z", writeFails := false }
      "COMPLETED"
      { id := "r1", square_payment_id := "pay_1", status := "pending", updated_at := none }
      (by decide) rfl (by decide) rfl (by decide)).1
    rw [h]
    decide
  · exact hc
      { paymentId := some (JVal.str "pay_1"), status := some (JVal.str "COMPLETED") }
      { table := [], now := "2026-01-01T00:00:00.000Z", writeFails := true }
      "COMPLETED" (by decide) rfl (by decide) rfl

/-- C6: for every create-payment request with tournamentId and userId both
present and a successful charge and insert, the registration update is
attempted with payment_status="completed", the gateway payment id, and
payment_amount equal to the same amount/100 conversion used for the
PaymentRecord; if that update fails the overall response is still the
unchanged full-success response. -/
theorem c6_registration_sync (body : Body) (q : ℚ) (env : PostEnv)
    (gid gstatus gcurrency rid : String)
    (hsrc : truthyOpt body.sourceId = true)
    (hkey : truthyOpt body.idempotencyKey = true)
    (hamt : body.amount = some (JVal.num q))
    (hden : q.den = 1) (hpos : 0 < q)
    (htid : truthyOpt body.tournamentId = true)
    (huid : truthyOpt body.userId = true)
    (hgw : env.gateway = GatewayOutcome.ok gid gstatus gcurrency)
    (hins : env.insertOutcome = some rid) :
    (POST (ReqBody.parsed body) env).2.regUpdates =
      [{ payment_status := "completed", payment_id := gid, payment_amount := q / 100,
         tournament_id := body.tournamentId, user_id := body.userId }] ∧
    (POST (ReqBody.parsed body) env).2.inserts.map PaymentInsert.amount = [q / 100] ∧
    (POST (ReqBody.parsed body) env).1 =
      { httpStatus := 200, success := true, paymentId := some gid, amount := some q,
        paymentStatus := some gstatus, recordId := some rid } ∧
    (POST (ReqBody.parsed body) { env with regUpdateFails := true }).1 =
      (POST (ReqBody.parsed body) { env with regUpdateFails := false }).1 := by
  have htr : truthyOpt (some (JVal.num q)) = true := by
    simp [truthyOpt, JVal.truthy, hpos.ne']
  simp [POST, postCharge, createPayment, hsrc, hkey, hamt, htr, hden, hpos,
    htid, huid, hgw, hins]

/-- Witness for C6 at a concrete tournament-entry payment. -/
theorem c6_registration_sync_witness :
    (POST (ReqBody.parsed
        { sourceId := some (JVal.str "src_1"), amount := some (JVal.num 300),
          idempotencyKey := some (JVal.str "key_1"),
          userId := some (JVal.str "u1"), tournamentId := some (JVal.str "t1") })
        { gateway := GatewayOutcome.ok "pay_1" "COMPLETED" "GBP",
          insertOutcome := some "rec_1", regUpdateFails := false }).2.regUpdates =
      [{ payment_status := "completed", payment_id := "pay_1",
         payment_amount := (300 : ℚ) / 100,
         tournament_id := some (JVal.str "t1"), user_id := some (JVal.str "u1") }] ∧
    (POST (ReqBody.parsed
        { sourceId := some (JVal.str "src_1"), amount := some (JVal.num 300),
          idempotencyKey := some (JVal.str "key_1"),
          userId := some (JVal.str "u1"), tournamentId := some (JVal.str "t1") })
        { gateway := GatewayOutcome.ok "pay_1" "COMPLETED" "GBP",
          insertOutcome := some "rec_1", regUpdateFails := false }).2.inserts.map
        PaymentInsert.amount = [(300 : ℚ) / 100] ∧
    (POST (ReqBody.parsed
        { sourceId := some (JVal.str "src_1"), amount := some (JVal.num 300),
          idempotencyKey := some (JVal.str "key_1"),
          userId := some (JVal.str "u1"), tournamentId := some (JVal.str "t1") })
        { gateway := GatewayOutcome.ok "pay_1" "COMPLETED" "GBP",
          insertOutcome := some "rec_1", regUpdateFails := false }).1 =
      { httpStatus := 200, success := true, paymentId := some "pay_1",
        amount := some 300, paymentStatus := some "COMPLETED",
        recordId := some "rec_1" } ∧
    (POST (ReqBody.parsed
        { sourceId := some (JVal.str "src_1"), amount := some (JVal.num 300),
          idempotencyKey := some (JVal.str "key_1"),
          userId := some (JVal.str "u1"), tournamentId := some (JVal.str "t1") })
        { gateway := GatewayOutcome.ok "pay_1" "COMPLETED" "GBP",
          insertOutcome := some "rec_1", regUpdateFails := true }).1 =
      (POST (ReqBody.parsed
        { sourceId := some (JVal.str "src_1"), amount := some (JVal.num 300),
          idempotencyKey := some (JVal.str "key_1"),
          userId := some (JVal.str "u1"), tournamentId := some (JVal.str "t1") })
        { gateway := GatewayOutcome.ok "pay_1" "COMPLETED" "GBP",
          insertOutcome := some "rec_1", regUpdateFails := false }).1 :=
  c6_registration_sync _ 300 _ "pay_1" "COMPLETED" "GBP" "rec_1"
    (by decide) (by decide) rfl (by decide) (by decide) (by decide) (by decide) rfl rfl

/-- C7: for every create-payment request that passes validation, the gateway
charge is invoked exactly once, with the request's sourceId, the request's
amount, the fixed currency code GBP, the request's idempotencyKey unchanged,
the description as note, and the reference string tournament_<tournamentId>
when tournamentId is truthy, otherwise no reference. -/
theorem c7_gateway_args (body : Body) (q : ℚ) (env : PostEnv)
    (hsrc : truthyOpt body.sourceId = true)
    (hkey : truthyOpt body.idempotencyKey = true)
    (hamt : body.amount = some (JVal.num q))
    (hden : q.den = 1) (hpos : 0 < q) :
    (POST (ReqBody.parsed body) env).2.gatewayCalls =
      [{ sourceId := body.sourceId, amount := q, currency := "GBP",
         idempotencyKey := body.idempotencyKey, note := body.description,
         referenceId := referenceIdOf body.tournamentId }] ∧
    (∀ t : JVal, body.tournamentId = some t → t.truthy = true →
      referenceIdOf body.tournamentId = some ("tournament_" ++ t.toJSString)) ∧
    (truthyOpt body.tournamentId = false → referenceIdOf body.tournamentId = none) := by
  have htr : truthyOpt (some (JVal.num q)) = true := by
    simp [truthyOpt, JVal.truthy, hpos.ne']
  refine ⟨?_, ?_, ?_⟩
  · obtain ⟨gw, ins, rf⟩ := env
    cases gw <;> cases ins <;>
      simp [POST, postCharge, createPayment, hsrc, hkey, hamt, htr, hden, hpos]
  · intro t ht htt
    simp [referenceIdOf, ht, htt]
  · intro h
    cases htid : body.tournamentId with
    | none => simp [referenceIdOf]
    | some t =>
        rw [htid] at h
        simp only [truthyOpt] at h
        simp [referenceIdOf, h]

/-- Witness for C7 at a concrete tournament-entry request. -/
theorem c7_gateway_args_witness :
    (POST (ReqBody.parsed
        { sourceId := some (JVal.str "src_1"), amount := some (JVal.num 300),
          idempotencyKey := some (JVal.str "key_1"),
          description := some (JVal.str "entry fee"),
          tournamentId := some (JVal.str "t1") })
        { gateway := GatewayOutcome.ok "pay_1" "COMPLETED" "GBP",
          insertOutcome := some "rec_1", regUpdateFails := false }).2.gatewayCalls =
      [{ sourceId := some (JVal.str "src_1"), amount := 300, currency := "GBP",
         idempotencyKey := some (JVal.str "key_1"),
         note := some (JVal.str "entry fee"),
         referenceId := referenceIdOf (some (JVal.str "t1")) }] ∧
    referenceIdOf (some (JVal.str "t1")) = some ("tournament_" ++ JVal.toJSString (JVal.str "t1")) :=
  ⟨(c7_gateway_args _ 300 _ (by decide) (by decide) rfl (by decide) (by decide)).1,
   (c7_gateway_args
      (Body.mk (some (JVal.str "src_1")) (some (JVal.num 300))
        (some (JVal.str "entry fee")) (some (JVal.str "key_1")) none
        (some (JVal.str "t1")) none none) 300
      { gateway := GatewayOutcome.ok "pay_1" "COMPLETED" "GBP",
        insertOutcome := some "rec_1", regUpdateFails := false }
      (by decide) (by decide) rfl (by decide) (by decide)).2.1
     (JVal.str "t1") rfl (by decide)⟩

/-- C8: if the payments insert fails after a successful gateway charge, the
tournament_registrations update is never attempted, even when tournamentId
and userId are both present: the handler returns the warning response before
reaching the registration-sync step. -/
theorem c8_insert_failure_skips_registration (body : Body) (q : ℚ) (env : PostEnv)
    (gid gstatus gcurrency : String)
    (hsrc : truthyOpt body.sourceId = true)
    (hkey : truthyOpt body.idempotencyKey = true)
    (hamt : body.amount = some (JVal.num q))
    (hden : q.den = 1) (hpos : 0 < q)
    (_htid : truthyOpt body.tournamentId = true)
    (_huid : truthyOpt body.userId = true)
    (hgw : env.gateway = GatewayOutcome.ok gid gstatus gcurrency)
    (hins : env.insertOutcome = none) :
    (POST (ReqBody.parsed body) env).2.regUpdates = [] ∧
    (POST (ReqBody.parsed body) env).1 =
      { httpStatus := 200, success := true, paymentId := some gid,
        warning := some "Payment processed but record creation failed" } := by
  have htr : truthyOpt (some (JVal.num q)) = true := by
    simp [truthyOpt, JVal.truthy, hpos.ne']
  simp [POST, postCharge, createPayment, hsrc, hkey, hamt, htr, hden, hpos, hgw, hins]

/-- Witness for C8 at a concrete tournament-entry payment whose insert
fails. -/
theorem c8_insert_failure_skips_registration_witness :
    (POST (ReqBody.parsed
        { sourceId := some (JVal.str "src_1"), amount := some (JVal.num 300),
          idempotencyKey := some (JVal.str "key_1"),
          userId := some (JVal.str "u1"), tournamentId := some (JVal.str "t1") })
        { gateway := GatewayOutcome.ok "pay_1" "COMPLETED" "GBP",
          insertOutcome := none, regUpdateFails := false }).2.regUpdates = [] ∧
    (POST (ReqBody.parsed
        { sourceId := some (JVal.str "src_1"), amount := some (JVal.num 300),
          idempotencyKey := some (JVal.str "key_1"),
          userId := some (JVal.str "u1"), tournamentId := some (JVal.str "t1") })
        { gateway := GatewayOutcome.ok "pay_1" "COMPLETED" "GBP",
          insertOutcome := none, regUpdateFails := false }).1 =
      { httpStatus := 200, success := true, paymentId := some "pay_1",
        warning := some "Payment processed but record creation failed" } :=
  c8_insert_failure_skips_registration _ 300 _ "pay_1" "COMPLETED" "GBP"
    (by decide) (by decide) rfl (by decide) (by decide) (by decide) (by decide) rfl rfl

/-- C9 counterexample: the update-status request with paymentId "pay_1" and
status the number 0 has a status field with no lower-casing operation, yet
the handler answers with the 400 validation response, not 500 — the number 0
is falsy, so the missing-field check fires before the lower-casing call would
throw. -/
theorem c9_counterexample :
    (PUT (ReqBody.parsed
        { paymentId := some (JVal.str "pay_1"), status := some (JVal.num 0) })
        { table := [], now := "2026-01-01T00:00:00.000Z", writeFails := false }).1 =
      { httpStatus := 400, success := false,
        error := some "Missing payment ID or status" } := by
  decide

/-- C9 (amended): for every inbound request whose body cannot be parsed, the
handler returns HTTP 500 with success=false and a generic message ("Payment
processing failed" for create-payment, "Payment update failed" for
update-status); and for every update-status request whose status field is
truthy but has no lower-casing operation (a non-string), the thrown error is
caught and the handler likewise returns the generic 500, never a 400
validation response. -/
theorem c9_generic_500 :
    (∀ env : PostEnv, (POST ReqBody.malformed env).1 =
      { httpStatus := 500, success := false,
        error := some "Payment processing failed" }) ∧
    (∀ env : PutEnv, (PUT ReqBody.malformed env).1 =
      { httpStatus := 500, success := false,
        error := some "Payment update failed" }) ∧
    (∀ (body : Body) (env : PutEnv),
      truthyOpt body.paymentId = true →
      truthyOpt body.status = true →
      (∀ s : String, body.status ≠ some (JVal.str s)) →
      (PUT (ReqBody.parsed body) env).1 =
        { httpStatus := 500, success := false,
          error := some "Payment update failed" }) := by
  refine ⟨fun env => rfl, fun env => rfl, ?_⟩
  intro body env hp hst hns
  cases hb : body.status with
  | none => rw [hb] at hst; simp [truthyOpt] at hst
  | some v =>
      cases v with
      | str s => exact absurd hb (hns s)
      | num q =>
          rw [hb] at hst
          simp only [truthyOpt] at hst
          have hts : truthyOpt (some (JVal.num q)) = true := by
            simp [truthyOpt, hst]
          simp [PUT, hp, hb, hts]
      | jbool b =>
          rw [hb] at hst
          simp only [truthyOpt] at hst
          have hts : truthyOpt (some (JVal.jbool b)) = true := by
            simp [truthyOpt, hst]
          simp [PUT, hp, hb, hts]
      | jnull => rw [hb] at hst; simp [truthyOpt, JVal.truthy] at hst

/-- Witness for C9 (amended): a malformed create-payment body, a malformed
update-status body, and an update-status body whose status is the truthy
number 5. -/
theorem c9_generic_500_witness :
    (POST ReqBody.malformed
        { gateway := GatewayOutcome.ok "pay_1" "COMPLETED" "GBP",
          insertOutcome := some "rec_1", regUpdateFails := false }).1 =
      { httpStatus := 500, success := false,
        error := some "Payment processing failed" } ∧
    (PUT ReqBody.malformed
        { table := [], now := "2026-01-01T00:00:00.000Z", writeFails := false }).1 =
      { httpStatus := 500, success := false,
        error := some "Payment update failed" } ∧
    (PUT (ReqBody.parsed
        { paymentId := some (JVal.str "pay_1"), status := some (JVal.num 5) })
        { table := [], now := "2026-01-01T00:00:00.000Z", writeFails := false }).1 =
      { httpStatus := 500, success := false,
        error := some "Payment update failed" } :=
  ⟨c9_generic_500.1 _, c9_generic_500.2.1 _,
   c9_generic_500.2.2
     { paymentId := some (JVal.str "pay_1"), status := some (JVal.num 5) }
     { table := [], now := "2026-01-01T00:00:00.000Z", writeFails := false }
     (by decide) (by decide) (fun s h => by simp at h)⟩

/-- C10: on full create-payment success, the status field of the HTTP
response is the gateway's status string verbatim, while the status persisted
in the PaymentRecord is the lower-cased version of that same string (so the
two can differ in case, as the witness shows at status "COMPLETED"). -/
theorem c10_status_casing (body : Body) (q : ℚ) (env : PostEnv)
    (gid gstatus gcurrency rid : String)
    (hsrc : truthyOpt body.sourceId = true)
    (hkey : truthyOpt body.idempotencyKey = true)
    (hamt : body.amount = some (JVal.num q))
    (hden : q.den = 1) (hpos : 0 < q)
    (hgw : env.gateway = GatewayOutcome.ok gid gstatus gcurrency)
    (hins : env.insertOutcome = some rid) :
    (POST (ReqBody.parsed body) env).1.paymentStatus = some gstatus ∧
    (POST (ReqBody.parsed body) env).2.inserts.map PaymentInsert.status =
      [jsToLowerCase gstatus] := by
  have htr : truthyOpt (some (JVal.num q)) = true := by
    simp [truthyOpt, JVal.truthy, hpos.ne']
  simp [POST, postCharge, createPayment, hsrc, hkey, hamt, htr, hden, hpos, hgw, hins]

/-- Witness for C10: at gateway status "COMPLETED" the response carries
"COMPLETED" while the stored record carries "completed", and the two
differ. -/
theorem c10_status_casing_witness :
    ((POST (ReqBody.parsed
        { sourceId := some (JVal.str "src_1"), amount := some (JVal.num 300),
          idempotencyKey := some (JVal.str "key_1") })
        { gateway := GatewayOutcome.ok "pay_1" "COMPLETED" "GBP",
          insertOutcome := some "rec_1", regUpdateFails := false }).1.paymentStatus =
      some "COMPLETED" ∧
    (POST (ReqBody.parsed
        { sourceId := some (JVal.str "src_1"), amount := some (JVal.num 300),
          idempotencyKey := some (JVal.str "key_1") })
        { gateway := GatewayOutcome.ok "pay_1" "COMPLETED" "GBP",
          insertOutcome := some "rec_1", regUpdateFails := false }).2.inserts.map
        PaymentInsert.status = [jsToLowerCase "COMPLETED"]) ∧
    some "COMPLETED" ≠ some (jsToLowerCase "COMPLETED") :=
  ⟨c10_status_casing _ 300 _ "pay_1" "COMPLETED" "GBP" "rec_1"
     (by decide) (by decide) rfl (by decide) (by decide) rfl rfl,
   by decide⟩
